import Mathlib

/-!
Verification of the malsori STT gateway (python_api/api_server) against its
natural-language specification.  The Python source is shallowly embedded:
JSON-like Python values become the inductive type `PyVal`, dictionary access,
Python truthiness and the short-circuiting `or` operator are modelled
explicitly, and code that can raise is embedded in `Except`.
-/

set_option maxRecDepth 4096

/-- JSON-like Python value as handled by the gateway: None, bool, int, str,
list and dict (association list with string keys, insertion ordered).  Floats
are restricted to integers, which covers every payload the server manipulates
in the verified paths. -/
inductive PyVal where
  | vnull : PyVal
  | vbool : Bool → PyVal
  | vint : Int → PyVal
  | vstr : String → PyVal
  | vlist : List PyVal → PyVal
  | vdict : List (String × PyVal) → PyVal

/-- Python truthiness: None, False, 0, empty string/list/dict are falsy. -/
def pyTruthy : PyVal → Bool
  | .vnull => false
  | .vbool b => b
  | .vint n => n != 0
  | .vstr s => s != ""
  | .vlist xs => !xs.isEmpty
  | .vdict kvs => !kvs.isEmpty

/-- Python `value is None` as a boolean test on the embedded value. -/
def pyIsNone : PyVal → Bool
  | .vnull => true
  | _ => false

/-- Python `a or b`: returns `a` when truthy, else `b`. -/
def pyOr (a b : PyVal) : PyVal := if pyTruthy a then a else b

/-- Python `dict.get(k)`: the stored value, or None when the key is absent.
A stored JSON null and an absent key both give None, exactly as in Python. -/
def dictGet (kvs : List (String × PyVal)) (k : String) : PyVal :=
  match kvs with
  | [] => .vnull
  | (k1, v) :: rest => if k1 = k then v else dictGet rest k

/-- Python `k in dict`: key presence, regardless of the stored value. -/
def dictHasKey (kvs : List (String × PyVal)) (k : String) : Bool :=
  match kvs with
  | [] => false
  | (k1, _) :: rest => k1 = k || dictHasKey rest k

/-- ASCII whitespace as recognized by Python `str.strip()` and `float()`. -/
def isPySpace (c : Char) : Bool :=
  c = ' ' || c = '\t' || c = '\n' || c = '\r' || c = '\x0b' || c = '\x0c'

/-- Embeds Python `str.strip()`: drop leading and trailing whitespace. -/
def pyStripStr (s : String) : String :=
  String.mk
    (((s.data.dropWhile isPySpace).reverse.dropWhile isPySpace).reverse)

/-- Fold a digit list into a natural number. -/
def digitsToNat (cs : List Char) : Nat :=
  cs.foldl (fun a c => a * 10 + (c.toNat - 48)) 0

/-- Embeds `int(float(s))` for a decimal string: optional surrounding
whitespace and sign, digits with an optional fractional part, truncated
toward zero (so only the integer digits survive).  Exotic float syntax
(exponents, inf, nan, underscores) is outside the model and maps to failure,
like any other unparsable string in the source's try/except. -/
def parsePyFloatTrunc (s : String) : Option Int :=
  let t := pyStripStr s
  let signed : Int × List Char :=
    match t.data with
    | '-' :: cs => (-1, cs)
    | '+' :: cs => (1, cs)
    | cs => (1, cs)
  let sign := signed.1
  let rest := signed.2
  let intPart := rest.takeWhile Char.isDigit
  let rest2 := rest.drop intPart.length
  match rest2 with
  | [] =>
      if intPart = [] then none
      else some (sign * (digitsToNat intPart : Int))
  | '.' :: frac =>
      if frac.all Char.isDigit ∧ (intPart ≠ [] ∨ frac ≠ []) then
        some (sign * (digitsToNat intPart : Int))
      else none
  | _ => none

/-- Embeds `_coerce_millis` (main.py): None maps to None; ints (and bools,
which are ints in Python) convert directly; anything else goes through
`int(float(str(value)))` with conversion failures caught and mapped to None. -/
def coerceMillis : PyVal → Option Int
  | .vnull => none
  | .vbool b => some (if b then 1 else 0)
  | .vint n => some n
  | .vstr s => parsePyFloatTrunc s
  | .vlist _ => none
  | .vdict _ => none

/-- Python `a or b` on `Optional[int]` operands: None and 0 are falsy. -/
def orOptInt (a b : Option Int) : Option Int :=
  match a with
  | some n => if n = 0 then b else some n
  | none => b

/-- Python `a or d` where `a` is `Optional[int]` and `d` an int default. -/
def pyOrIntD (a : Option Int) (d : Int) : Int :=
  match a with
  | some n => if n = 0 then d else n
  | none => d

/-- Normalized transcript segment produced by `_extract_segments_from_entry`:
the dict literal `{"speaker": ..., "startMs": ..., "endMs": ..., "text": ...}`. -/
structure Segment where
  speaker : PyVal
  startMs : Int
  endMs : Int
  text : String

/-- Exceptions the segment extractor can raise. -/
inductive ExtractErr where
  | attributeError : ExtractErr
deriving DecidableEq, Repr

/-- Embeds `text.strip()`: succeeds only on strings; on any other value the
attribute lookup raises (AttributeError in Python). -/
def pyStrip : PyVal → Except ExtractErr String
  | .vstr s => .ok (pyStripStr s)
  | _ => .error .attributeError

/-- Scan of the `alternatives` loop: first truthy `text` value of a dict
entry, skipping non-dicts; None when nothing matches or the input is not a
list. -/
def altTextList : List PyVal → PyVal
  | [] => .vnull
  | .vdict kvs :: rest =>
      let t := dictGet kvs "text"
      if pyTruthy t then t else altTextList rest
  | _ :: rest => altTextList rest

/-- Dispatcher for the `alternatives` field: only list values are scanned. -/
def altText : PyVal → PyVal
  | .vlist xs => altTextList xs
  | _ => .vnull

theorem dictGet_sizeOf_lt (kvs : List (String × PyVal)) (k : String) :
    sizeOf (dictGet kvs k) < 1 + sizeOf kvs := by
  induction kvs with
  | nil => simp [dictGet]
  | cons hd tl ih =>
    obtain ⟨k1, v⟩ := hd
    simp only [dictGet]
    split
    · simp only [List.cons.sizeOf_spec, Prod.mk.sizeOf_spec]
      omega
    · simp only [List.cons.sizeOf_spec, Prod.mk.sizeOf_spec]
      omega

mutual

/-- Embeds `_extract_segments_from_entry` (main.py): lists are traversed
element-wise; non-dict scalars are skipped; a dict contributes a segment when
it carries truthy text (from `msg`, `text`, or the first truthy alternative
text), and is then recursively searched through its `utterances` and
`results` children (in that order) whenever those keys map to a non-None
value.  `text.strip()` on a truthy non-string value raises, which the
embedding surfaces as `ExtractErr.attributeError`. -/
def extractEntry (entry : PyVal) : Except ExtractErr (List Segment) :=
  match entry with
  | .vlist xs => extractPyList xs
  | .vdict kvs =>
      let text0 := pyOr (dictGet kvs "msg") (dictGet kvs "text")
      let text := if pyTruthy text0 then text0 else
        let alt := altText (dictGet kvs "alternatives")
        if pyTruthy alt then alt else text0
      let startMs := orOptInt
        (orOptInt (coerceMillis (dictGet kvs "start_at"))
          (coerceMillis (dictGet kvs "start_ms")))
        (coerceMillis (dictGet kvs "start"))
      let endMs0 := orOptInt
        (orOptInt (coerceMillis (dictGet kvs "end_at"))
          (coerceMillis (dictGet kvs "end_ms")))
        (coerceMillis (dictGet kvs "end"))
      let durationMs := coerceMillis (dictGet kvs "duration")
      let endMs : Option Int :=
        match endMs0, startMs, durationMs with
        | none, some s, some d => some (s + d)
        | e, _, _ => e
      let speaker := pyOr (pyOr (dictGet kvs "spk") (dictGet kvs "speaker"))
        (dictGet kvs "speaker_label")
      do
        let own : List Segment ←
          if pyTruthy text then do
            let t ← pyStrip text
            let startV := pyOrIntD startMs 0
            pure [⟨speaker, startV, pyOrIntD endMs startV, t⟩]
          else pure []
        let fromUtter : List Segment ←
          if pyIsNone (dictGet kvs "utterances") then pure []
          else extractEntry (dictGet kvs "utterances")
        let fromResults : List Segment ←
          if pyIsNone (dictGet kvs "results") then pure []
          else extractEntry (dictGet kvs "results")
        pure (own ++ fromUtter ++ fromResults)
  | _ => .ok []
termination_by sizeOf entry
decreasing_by
  all_goals first
    | (simp only [PyVal.vlist.sizeOf_spec]; omega)
    | (have h1 := dictGet_sizeOf_lt kvs "utterances"
       have h2 := dictGet_sizeOf_lt kvs "results"
       simp only [PyVal.vdict.sizeOf_spec]
       omega)

/-- List traversal of `_extract_segments_from_entry`, preserving order and
propagating a raised exception from any element. -/
def extractPyList (xs : List PyVal) : Except ExtractErr (List Segment) :=
  match xs with
  | [] => .ok []
  | x :: rest => do
      let a ← extractEntry x
      let b ← extractPyList rest
      pure (a ++ b)
termination_by sizeOf xs
decreasing_by
  all_goals (simp only [List.cons.sizeOf_spec]; omega)

end

/-- Embeds `_extract_segments` (main.py): extract from `result.get("results")`
first, and only when that produced nothing, from the whole payload. -/
def extractSegments (result : List (String × PyVal)) :
    Except ExtractErr (List Segment) := do
  let s1 ← extractEntry (dictGet result "results")
  if s1.isEmpty then extractEntry (.vdict result) else pure s1

/-- Embeds the aggregate-text derivation of `proxy_transcription_status`
(main.py): join the truthy segment texts with single spaces. -/
def aggregateText (segs : List Segment) : String :=
  String.intercalate " " ((segs.filter (fun s => s.text ≠ "")).map Segment.text)

/-!
Access token cache (stt_client.py, `RTZRClient`).  Time is modelled as an
integer number of seconds.  The relevant fields of an authentication
response: `access_token` (a string or absent), and the numeric values of
`expire_at` and `expires_in`, where `none` stands for an absent field or for
a value `float()` fails to convert, exactly the cases the source loop skips.
-/

/-- Authentication response fields read by `_refresh_token`. -/
structure AuthPayload where
  accessToken : Option String
  expireAt : Option Int
  expiresIn : Option Int

/-- Mutable token state of `RTZRClient`: `_access_token` and `_token_expiry`
(initially None and 0.0). -/
structure TokenState where
  accessToken : Option String
  tokenExpiry : Int

/-- Client construction flags read by the token paths. -/
structure ClientConfig where
  manualToken : String
  authEnabled : Bool
  deployment : String

/-- Embeds the expiry computation of `_refresh_token` (stt_client.py):
prefer an absolute `expire_at`, else `now + expires_in`; when neither is
convertible, or the computed expiry is not in the future (`expiry <= now`),
fall back to `now + 300`. -/
def refreshExpiry (p : AuthPayload) (now : Int) : Int :=
  let expiry : Option Int :=
    match p.expireAt with
    | some v => some v
    | none =>
        match p.expiresIn with
        | some v => some (now + v)
        | none => none
  match expiry with
  | none => now + 300
  | some e => if e ≤ now then now + 300 else e

/-- Embeds `_refresh_token` (stt_client.py): fails when the response lacks a
truthy `access_token`; otherwise stores the token with the computed expiry.
On failure the token state is left unmodified (the source raises before the
assignments). -/
def refreshToken (p : AuthPayload) (now : Int) : Except String TokenState :=
  match p.accessToken with
  | none => .error "Authentication response missing access_token."
  | some tok =>
      if tok = "" then .error "Authentication response missing access_token."
      else .ok ⟨some tok, refreshExpiry p now⟩

/-- Validity test of `_ensure_token`: a truthy cached token whose expiry is
more than the 5-second safety margin away. -/
def tokenValid (st : TokenState) (now : Int) : Bool :=
  match st.accessToken with
  | some t => t != "" && now < st.tokenExpiry - 5
  | none => false

/-- Outcome of one `_ensure_token` call, distinguishing how the returned
token was obtained. -/
inductive EnsureOutcome where
  | manual (tok : String)
  | cached (tok : String)
  | refreshed (tok : String)
  | failed (msg : String)

/-- Embeds `_ensure_token` (stt_client.py).  The double-checked locking is
sequentialized: `now1` is the clock sample of the unlocked check and `now2`
the sample taken after acquiring the lock; `resp` is the authentication
response consumed if a refresh happens.  Returns the outcome together with
the token state after the call. -/
def ensureToken (cfg : ClientConfig) (st : TokenState) (now1 now2 : Int)
    (resp : AuthPayload) : EnsureOutcome × TokenState :=
  if cfg.manualToken ≠ "" then (.manual cfg.manualToken, st)
  else if !cfg.authEnabled then
    (.failed "Authentication requested but credentials are not configured.", st)
  else
    match st.accessToken with
    | some t =>
        if t ≠ "" ∧ now1 < st.tokenExpiry - 5 then (.cached t, st)
        else if t ≠ "" ∧ now2 < st.tokenExpiry - 5 then (.cached t, st)
        else
          match refreshToken resp now2 with
          | .error e => (.failed e, st)
          | .ok st1 =>
              match st1.accessToken with
              | some t1 => (.refreshed t1, st1)
              | none => (.failed "Unable to obtain RTZR access token.", st1)
    | none =>
        match refreshToken resp now2 with
        | .error e => (.failed e, st)
        | .ok st1 =>
            match st1.accessToken with
            | some t1 => (.refreshed t1, st1)
            | none => (.failed "Unable to obtain RTZR access token.", st1)

/-- Result of `_resolve_access_token` together with whether the call touched
the network (the only network operation on these paths is the refresh POST
inside `_ensure_token`). -/
inductive ResolveOutcome where
  | token (tok : String)
  | noToken
  | failed (msg : String)

/-- Embeds `_resolve_access_token` (stt_client.py): on-prem deployments use
the manual token or none; otherwise a configured manual token is returned
directly, a client without auth yields no token, and the remaining case
defers to `_ensure_token`.  The final component records whether a network
request (token refresh) was performed. -/
def resolveAccessToken (cfg : ClientConfig) (st : TokenState)
    (now1 now2 : Int) (resp : AuthPayload) :
    ResolveOutcome × TokenState × Bool :=
  if cfg.deployment = "onprem" then
    (if cfg.manualToken ≠ "" then .token cfg.manualToken else .noToken, st, false)
  else if cfg.manualToken ≠ "" then (.token cfg.manualToken, st, false)
  else if !cfg.authEnabled then (.noToken, st, false)
  else
    match ensureToken cfg st now1 now2 resp with
    | (.manual t, st1) => (.token t, st1, false)
    | (.cached t, st1) => (.token t, st1, false)
    | (.refreshed t, st1) => (.token t, st1, true)
    | (.failed e, st1) => (.failed e, st1, true)

/-!
The gRPC streaming session (stt_client.py, `GrpcStreamingSession`).  The
state records whether `start()` has set up the call object (`_call`),
whether `done_writing()` was requested by `finish()`, and the `_closed`
flag set by `close()`.
-/

/-- Abstract state of a `GrpcStreamingSession`. -/
structure GrpcSession where
  started : Bool
  writesDone : Bool
  closed : Bool

/-- What a `send_audio` call does. -/
inductive SendResult where
  | stateError
  | wroteToStream
deriving DecidableEq

namespace GrpcSession

/-- Embeds `GrpcStreamingSession.send_audio`: raises a RuntimeError state
error only when the call object does not exist (`start()` never ran); in
every other state it proceeds to `self._call.write(...)`. -/
def send_audio (s : GrpcSession) : SendResult :=
  if !s.started then .stateError else .wroteToStream

/-- Embeds `GrpcStreamingSession.finish`: half-closes the write side when a
call object exists, otherwise does nothing. -/
def finish (s : GrpcSession) : GrpcSession :=
  if s.started then { s with writesDone := true } else s

/-- Embeds `GrpcStreamingSession.close`: idempotent hard teardown setting
the `_closed` flag. -/
def close (s : GrpcSession) : GrpcSession :=
  { s with closed := true }

/-- Session state right after a successful `start()`. -/
def afterStart : GrpcSession := ⟨true, false, false⟩

end GrpcSession

/-!
Batch submit and poll (stt_client.py `submit_transcription`,
main.py `_poll_until_complete`).
-/

/-- Upstream HTTP response to the submit POST: status code and decoded JSON
object body. -/
structure HttpResponse where
  status : Nat
  payload : List (String × PyVal)

/-- Result of `submit_transcription`: the enriched payload plus the resolved
job id, an HTTP status failure (`raise_for_status`), or the missing-id
RuntimeError. -/
inductive SubmitResult where
  | ok (jobId : PyVal) (payload : List (String × PyVal))
  | httpError (status : Nat)
  | missingId

/-- Job id resolution of `submit_transcription`:
`payload.get("id") or payload.get("tid") or payload.get("transcribe_id")`. -/
def resolveJobId (payload : List (String × PyVal)) : PyVal :=
  pyOr (pyOr (dictGet payload "id") (dictGet payload "tid"))
    (dictGet payload "transcribe_id")

/-- Embeds `submit_transcription` (stt_client.py) from the upstream response
on: `raise_for_status` fails on any non-2xx status; then the job id is
resolved from `id`, `tid`, `transcribe_id` (first truthy wins) and its
absence raises; finally a missing `transcribe_id` key is added with the
resolved id (Python dict insertion appends at the end). -/
def submitTranscription (resp : HttpResponse) : SubmitResult :=
  if resp.status < 200 ∨ 300 ≤ resp.status then .httpError resp.status
  else
    let jobId := resolveJobId resp.payload
    if !pyTruthy jobId then .missingId
    else if dictHasKey resp.payload "transcribe_id" then .ok jobId resp.payload
    else .ok jobId (resp.payload ++ [("transcribe_id", jobId)])

/-- Python `status in {"completed", "failed"}` on the decoded value. -/
def isTerminalStatus : PyVal → Bool
  | .vstr s => s = "completed" || s = "failed"
  | _ => false

/-- One round of the polling loop: the decoded status payload returned by
`get_transcription`, and the monotonic clock reading at the deadline check
that follows the fetch. -/
structure PollRound where
  payload : List (String × PyVal)
  checkTime : Int

/-- Result of `_poll_until_complete`: a terminal payload, or None on
timeout. -/
inductive PollOutcome where
  | result (payload : List (String × PyVal))
  | timeout

/-- Embeds the loop body of `_poll_until_complete` (main.py) against a trace
of poll rounds: fetch, return the payload when its status is completed or
failed, otherwise return None (timeout) when the clock has passed the
deadline, else sleep and loop.  Returns the outcome and the number of rounds
(fetches) consumed; an exhausted trace means the loop would keep polling. -/
def pollLoop (deadline : Int) : List PollRound → Option (PollOutcome × Nat)
  | [] => none
  | r :: rest =>
      if isTerminalStatus (dictGet r.payload "status") then
        some (.result r.payload, 1)
      else if deadline < r.checkTime then some (.timeout, 1)
      else
        match pollLoop deadline rest with
        | some (out, n) => some (out, n + 1)
        | none => none

/-- Embeds `_poll_until_complete` (main.py): the absolute deadline is
computed exactly once at entry as the entry clock plus the configured
timeout, then the loop runs. -/
def pollUntilComplete (entryTime timeoutSeconds : Int)
    (trace : List PollRound) : Option (PollOutcome × Nat) :=
  pollLoop (entryTime + timeoutSeconds) trace

/-!
The synchronous endpoint `stt_api` (main.py): validation happens before any
upstream call.
-/

/-- Base64 alphabet membership. -/
def isB64Char (c : Char) : Bool :=
  (('A' ≤ c ∧ c ≤ 'Z') ∨ ('a' ≤ c ∧ c ≤ 'z') ∨ ('0' ≤ c ∧ c ≤ '9')) ||
    c = '+' || c = '/'

/-- Embeds `base64.b64decode` from the Python standard library in its
default lenient mode, as called by `stt_api`: the str argument must be
ASCII; characters outside the base64 alphabet are discarded; the remaining
alphabet-plus-padding characters must form whole quads and the data portion
of the final quad may not be a single character (binascii raises Incorrect
padding otherwise).  Returns the decoded byte values.  Exotic inputs
(padding followed by more data) are outside the model and map to failure. -/
def b64decode (s : String) : Option (List Nat) :=
  if !s.data.all (fun c => c.toNat < 128) then none
  else
    let kept := s.data.filter (fun c => isB64Char c || c = '=')
    let data := kept.takeWhile (fun c => c ≠ '=')
    let pad := kept.drop data.length
    if !pad.all (fun c => c = '=') then none
    else if kept.length % 4 ≠ 0 then none
    else if data.length % 4 = 1 then none
    else
      let sextet (c : Char) : Nat :=
        if 'A' ≤ c ∧ c ≤ 'Z' then c.toNat - 65
        else if 'a' ≤ c ∧ c ≤ 'z' then c.toNat - 97 + 26
        else if '0' ≤ c ∧ c ≤ '9' then c.toNat - 48 + 52
        else if c = '+' then 62 else 63
      let bits := data.foldl (fun acc c => acc * 64 + sextet c) 0
      let nbits := data.length * 6
      let nbytes := nbits / 8
      let bits := bits / 2 ^ (nbits - nbytes * 8)
      some ((List.range nbytes).reverse.map (fun i => bits / 2 ^ (8 * i) % 256))

/-- Python `str.lower()` restricted to ASCII, as applied to the language
code. -/
def pyLower (s : String) : String :=
  String.mk (s.data.map Char.toLower)

/-- Request argument of the `stt_api` endpoint. -/
structure STTArgument where
  languageCode : String
  audio : String

/-- Control-flow phases of `stt_api` (main.py) up to and including the
upstream submit.  Every constructor except `submitted` and `submitFailed`
is produced before any upstream call. -/
inductive SttPhase where
  | settingsRejected
  | languageRejected
  | base64Rejected
  | configRejected
  | submitFailed
  | noTranscribeId
  | submitted (transcribeId : PyVal)

/-- Embeds the validation and submission prefix of `stt_api` (main.py):
settings resolution, the language-code gate (`korean`, case-insensitive),
base64 decoding of the audio field, config loading, the upstream submit,
and the transcribe-id extraction from the submit payload.  The boolean
records whether an upstream call (submit) was made. -/
def sttApiPhase (settingsOk configOk : Bool) (req : STTArgument)
    (submitResp : HttpResponse) : SttPhase × Bool :=
  if !settingsOk then (.settingsRejected, false)
  else if pyLower req.languageCode ≠ "korean" then (.languageRejected, false)
  else
    match b64decode req.audio with
    | none => (.base64Rejected, false)
    | some _ =>
        if !configOk then (.configRejected, false)
        else
          match submitTranscription submitResp with
          | .httpError _ => (.submitFailed, true)
          | .missingId => (.submitFailed, true)
          | .ok _ payload =>
              let tid := pyOr (pyOr (dictGet payload "transcribe_id")
                (dictGet payload "id")) (dictGet payload "tid")
              if !pyTruthy tid then (.noTranscribeId, true)
              else (.submitted tid, true)

/-- Tests whether an `_ensure_token` outcome served the cached token. -/
def EnsureOutcome.isCached : EnsureOutcome → Bool
  | .cached _ => true
  | _ => false

/-- Tests whether an `_ensure_token` outcome went through `_refresh_token`
(a successful refresh, or a failure raised while refreshing). -/
def EnsureOutcome.isRefreshAttempt : EnsureOutcome → Bool
  | .refreshed _ => true
  | .failed _ => true
  | _ => false

theorem dictHasKey_append_self (kvs : List (String × PyVal)) (k : String)
    (v : PyVal) : dictHasKey (kvs ++ [(k, v)]) k = true := by
  induction kvs with
  | nil => simp [dictHasKey]
  | cons hd tl ih =>
    obtain ⟨k1, v1⟩ := hd
    simp [dictHasKey, ih]

theorem dictGet_of_not_hasKey (kvs : List (String × PyVal)) (k : String)
    (h : dictHasKey kvs k = false) : dictGet kvs k = .vnull := by
  induction kvs with
  | nil => rfl
  | cons hd tl ih =>
    obtain ⟨k1, v1⟩ := hd
    simp [dictHasKey] at h
    simp [dictGet, h.1, ih h.2]

/-- C1, counterexample.  The claim states that an auth response with
`expires_in: 0` (or a past `expire_at`) is never stored as valid and that
the next resolver call performs another refresh.  In the code, the
`expiry <= now` guard of `_refresh_token` replaces such an expiry with the
`now + 300` default: refreshing at time 1000 with `expires_in: 0` stores
expiry 1300, the stored token is valid at time 1001, and the next
`_ensure_token` call returns the cached token instead of refreshing.  The
last conjunct shows the same default for a past `expire_at` (900 at time
1000). -/
theorem claim_C1_counterexample :
    ensureToken ⟨"", true, "cloud"⟩ ⟨none, 0⟩ 1000 1000
        ⟨some "tok", none, some 0⟩
      = (.refreshed "tok", ⟨some "tok", 1300⟩) ∧
    tokenValid ⟨some "tok", 1300⟩ 1001 = true ∧
    ensureToken ⟨"", true, "cloud"⟩ ⟨some "tok", 1300⟩ 1001 1001
        ⟨some "other", none, some 3600⟩
      = (.cached "tok", ⟨some "tok", 1300⟩) ∧
    refreshExpiry ⟨some "tok", some 900, none⟩ 1000 = 1300 := by
  refine ⟨rfl, by decide, rfl, by decide⟩

/-- C1, amended claim: an auth response whose payload carries
`expires_in: 0` or a past `expire_at` is stored with the default 300-second
lease (expiry = refresh time + 300), so the token IS cached as valid, and
any token-resolver call within the following 295 seconds returns the cached
token without performing another refresh. -/
theorem claim_C1_amended (p : AuthPayload) (tok : String) (dep : String)
    (now nowNext : Int) (resp2 : AuthPayload)
    (htok : p.accessToken = some tok) (hne : tok ≠ "")
    (hexp : (p.expireAt = none ∧ p.expiresIn = some 0) ∨
            (∃ e, p.expireAt = some e ∧ e ≤ now))
    (hwin : nowNext < now + 295) :
    refreshToken p now = .ok ⟨some tok, now + 300⟩ ∧
    ensureToken ⟨"", true, dep⟩ ⟨some tok, now + 300⟩ nowNext nowNext resp2
      = (.cached tok, ⟨some tok, now + 300⟩) := by
  have hexpiry : refreshExpiry p now = now + 300 := by
    rcases hexp with ⟨h1, h2⟩ | ⟨e, h1, h2⟩
    · simp [refreshExpiry, h1, h2]
    · simp [refreshExpiry, h1, h2]
  constructor
  · simp [refreshToken, htok, hne, hexpiry]
  · have hcond : tok ≠ "" ∧ nowNext < now + 300 - 5 := ⟨hne, by omega⟩
    simp [ensureToken, hcond]

/-- Witness for the amended C1 at a concrete refresh with `expires_in: 0`. -/
theorem claim_C1_amended_witness :
    refreshToken ⟨some "tok", none, some 0⟩ 1000 = .ok ⟨some "tok", 1300⟩ ∧
    ensureToken ⟨"", true, "cloud"⟩ ⟨some "tok", 1300⟩ 1001 1001
        ⟨none, none, none⟩
      = (.cached "tok", ⟨some "tok", 1300⟩) := by
  have h := claim_C1_amended ⟨some "tok", none, some 0⟩ "tok" "cloud" 1000 1001
    ⟨none, none, none⟩ rfl (by decide) (Or.inl ⟨rfl, rfl⟩) (by decide)
  simpa using h

/-- C2: the upstream batch response with one `utterances` entry
`msg: "hello", start_at: 0, end_at: 500` normalizes to exactly one segment
with text "hello", startMs 0, endMs 500 and no speaker, and the aggregate
text derived from the segments is "hello". -/
theorem claim_C2_roundtrip :
    extractSegments [("status", .vstr "completed"),
        ("results", .vdict [("utterances", .vlist
          [.vdict [("msg", .vstr "hello"), ("start_at", .vint 0),
                   ("end_at", .vint 500)]])])]
      = .ok [⟨.vnull, 0, 500, "hello"⟩] ∧
    aggregateText [⟨.vnull, 0, 500, "hello"⟩] = "hello" := by
  refine ⟨?_, rfl⟩
  simp [extractSegments, extractEntry, extractPyList, dictGet, pyOr, pyTruthy,
        pyIsNone, altText, coerceMillis, orOptInt, pyOrIntD, pyStrip]
  rfl

/-- C3: the claim says the segment extractor never raises on any JSON-like
input, explicitly including mappings whose `msg`/`text` fields are
non-string values.  Evaluating the embedded extractor at the payload
`{"msg": 123}` shows the code reaching `text.strip()` with an integer,
which raises (AttributeError) instead of skipping the node. -/
theorem claim_C3_eval :
    extractSegments [("msg", .vint 123)] = .error .attributeError := by
  simp [extractSegments, extractEntry, dictGet, pyOr, pyTruthy, pyIsNone,
        altText, coerceMillis, orOptInt, pyStrip]
  rfl

/-- C4, counterexample.  The claim states that `sendAudio` after `finish()`
(HalfClosed) or `close()` (Closed) fails with a state error.  In the code
`send_audio` only guards against a missing call object: after `finish()` or
`close()` on a started session it still proceeds to write on the stream. -/
theorem claim_C4_counterexample :
    GrpcSession.send_audio (GrpcSession.finish GrpcSession.afterStart)
        = .wroteToStream ∧
    GrpcSession.send_audio (GrpcSession.close GrpcSession.afterStart)
        = .wroteToStream ∧
    SendResult.wroteToStream ≠ SendResult.stateError := by
  refine ⟨rfl, rfl, by decide⟩

/-- C4, amended claim: `send_audio` fails with a state error exactly when
the session was never started (no call object exists); calling `finish()`
or `close()` does not change that behavior, so after half-close or close of
a started session the write on the stream is still attempted. -/
theorem claim_C4_amended (s : GrpcSession) :
    (GrpcSession.send_audio s = .stateError ↔ s.started = false) ∧
    GrpcSession.send_audio (GrpcSession.finish s) = GrpcSession.send_audio s ∧
    GrpcSession.send_audio (GrpcSession.close s) = GrpcSession.send_audio s := by
  obtain ⟨st, wd, cl⟩ := s
  cases st <;>
    simp [GrpcSession.send_audio, GrpcSession.finish, GrpcSession.close]

/-- C5: whenever a manual (static) token is configured, the token resolver
returns exactly that token, leaves the token state untouched and performs
no network request, for every deployment mode and on every call. -/
theorem claim_C5_static_token (cfg : ClientConfig) (st : TokenState)
    (now1 now2 : Int) (resp : AuthPayload) (h : cfg.manualToken ≠ "") :
    resolveAccessToken cfg st now1 now2 resp
      = (.token cfg.manualToken, st, false) := by
  unfold resolveAccessToken
  by_cases hd : cfg.deployment = "onprem" <;> simp [hd, h]

/-- Witness for C5 with the manual token "abc". -/
theorem claim_C5_witness :
    resolveAccessToken ⟨"abc", false, "cloud"⟩ ⟨none, 0⟩ 0 0 ⟨none, none, none⟩
      = (.token "abc", ⟨none, 0⟩, false) :=
  claim_C5_static_token ⟨"abc", false, "cloud"⟩ ⟨none, 0⟩ 0 0 ⟨none, none, none⟩
    (by decide)

/-- C6: without a manual token, whenever `_ensure_token` serves the cached
token it is the stored one, the state is unchanged, and at one of the two
clock samples taken before returning the safety-margin invariant
`now < expiry - 5` holds; and when the cached token is invalid at both
samples, the call goes through `_refresh_token` instead of returning the
cache. -/
theorem claim_C6_margin (cfg : ClientConfig) (st : TokenState)
    (now1 now2 : Int) (resp : AuthPayload)
    (hm : cfg.manualToken = "") (ha : cfg.authEnabled = true) :
    (∀ t, (ensureToken cfg st now1 now2 resp).1 = .cached t →
        st.accessToken = some t ∧ t ≠ "" ∧
        (ensureToken cfg st now1 now2 resp).2 = st ∧
        (now1 < st.tokenExpiry - 5 ∨ now2 < st.tokenExpiry - 5)) ∧
    (tokenValid st now1 = false → tokenValid st now2 = false →
        (ensureToken cfg st now1 now2 resp).1.isRefreshAttempt = true) := by
  obtain ⟨atok, texp⟩ := st
  simp only [ensureToken, hm, ha, tokenValid, EnsureOutcome.isRefreshAttempt]
  cases atok with
  | none =>
    constructor
    · intro t h
      exfalso
      rcases hr : refreshToken resp now2 with e | st1 <;> simp [hr] at h
      rcases hsa : st1.accessToken with _ | t1 <;> simp [hsa] at h
    · intro h1 h2
      rcases hr : refreshToken resp now2 with e | st1 <;> simp [hr]
      rcases hsa : st1.accessToken with _ | t1 <;> simp [hsa]
  | some t0 =>
    by_cases hc1 : t0 ≠ "" ∧ now1 < texp - 5
    · simp only [if_pos hc1]
      constructor
      · intro t h
        simp at h
        subst h
        exact ⟨rfl, hc1.1, rfl, Or.inl hc1.2⟩
      · intro h1 h2
        exfalso
        simp at h1
        exact absurd (h1 hc1.1) (by omega)
    · simp only [if_neg hc1]
      by_cases hc2 : t0 ≠ "" ∧ now2 < texp - 5
      · simp only [if_pos hc2]
        constructor
        · intro t h
          simp at h
          subst h
          exact ⟨rfl, hc2.1, rfl, Or.inr hc2.2⟩
        · intro h1 h2
          exfalso
          simp at h2
          exact absurd (h2 hc2.1) (by omega)
      · simp only [if_neg hc2]
        constructor
        · intro t h
          exfalso
          rcases hr : refreshToken resp now2 with e | st1 <;> simp [hr] at h
          rcases hsa : st1.accessToken with _ | t1 <;> simp [hsa] at h
        · intro h1 h2
          rcases hr : refreshToken resp now2 with e | st1 <;> simp [hr]
          rcases hsa : st1.accessToken with _ | t1 <;> simp [hsa]

/-- Witness for C6 with a cached token valid at both samples. -/
theorem claim_C6_witness :
    (⟨some "tok", 100⟩ : TokenState).accessToken = some "tok" ∧ "tok" ≠ "" ∧
    (ensureToken ⟨"", true, "cloud"⟩ ⟨some "tok", 100⟩ 10 10
      ⟨none, none, none⟩).2 = ⟨some "tok", 100⟩ ∧
    ((10 : Int) < 100 - 5 ∨ (10 : Int) < 100 - 5) :=
  (claim_C6_margin ⟨"", true, "cloud"⟩ ⟨some "tok", 100⟩ 10 10 ⟨none, none, none⟩
    rfl rfl).1 "tok" (by rfl)

/-- C7: the submit operation fails with an upstream HTTP error on every
non-2xx status; on a 2xx status with all of `id`, `tid`, `transcribe_id`
absent or falsy it fails with the missing-id error; and whenever it
succeeds, the resolved job id is the first truthy value among `id`, `tid`,
`transcribe_id`, in that priority order. -/
theorem claim_C7_submit (resp : HttpResponse) :
    ((resp.status < 200 ∨ 300 ≤ resp.status) →
        submitTranscription resp = .httpError resp.status) ∧
    (200 ≤ resp.status → resp.status < 300 →
      ((pyTruthy (dictGet resp.payload "id") = false →
        pyTruthy (dictGet resp.payload "tid") = false →
        pyTruthy (dictGet resp.payload "transcribe_id") = false →
        submitTranscription resp = .missingId) ∧
       (∀ jobId payload1, submitTranscription resp = .ok jobId payload1 →
         jobId = (if pyTruthy (dictGet resp.payload "id") = true then
             dictGet resp.payload "id"
           else if pyTruthy (dictGet resp.payload "tid") = true then
             dictGet resp.payload "tid"
           else dictGet resp.payload "transcribe_id") ∧
         pyTruthy jobId = true))) := by
  constructor
  · intro h
    simp only [submitTranscription]
    rw [if_pos h]
  · intro hlo hhi
    have hok : ¬(resp.status < 200 ∨ 300 ≤ resp.status) := by omega
    constructor
    · intro hid htid htr
      simp [submitTranscription, hok, resolveJobId, pyOr, hid, htid, htr]
    · intro jobId payload1 h
      simp only [submitTranscription, if_neg hok] at h
      by_cases hj : pyTruthy (resolveJobId resp.payload) = true
      · have hjob : jobId = resolveJobId resp.payload := by
          rcases hk : dictHasKey resp.payload "transcribe_id" <;>
            simp [hj, hk] at h
          · exact h.1.symm
          · exact h.1.symm
        subst hjob
        refine ⟨?_, hj⟩
        simp only [resolveJobId, pyOr]
        by_cases h1 : pyTruthy (dictGet resp.payload "id") = true <;>
          by_cases h2 : pyTruthy (dictGet resp.payload "tid") = true <;>
            simp [h1, h2]
      · simp [hj] at h

/-- Witness for C7 at a 404 upstream response. -/
theorem claim_C7_witness :
    submitTranscription ⟨404, []⟩ = .httpError 404 :=
  (claim_C7_submit ⟨404, []⟩).1 (by decide)

/-- C8, counterexample.  The claim states the poll loop never starts
another round past the deadline.  The code checks the deadline before the
interval sleep, not after it, so with interval 10 and timeout 1 a run whose
first check happens at time 0 consumes a second round whose fetch starts at
time 10, already past the deadline 1 (second conjunct). -/
theorem claim_C8_counterexample :
    pollUntilComplete 0 1
        [⟨[("status", .vstr "processing")], 0⟩,
         ⟨[("status", .vstr "processing")], 10⟩]
      = some (.timeout, 2) ∧
    (0 : Int) + 10 > 0 + 1 := by
  refine ⟨rfl, by decide⟩

/-- C8, amended claim: the deadline is computed once at entry; every round
whose status is completed/failed returns immediately; and on a trace with
no terminal status, the loop returns Timeout exactly once, at the first
post-fetch check that observes the deadline passed — every earlier check
was at or before the deadline, so no round is started after a failed
deadline check, though the final fetch itself may begin past the deadline
(the check precedes the sleep). -/
theorem claim_C8_amended (deadline : Int) (trace : List PollRound)
    (hterm : ∀ r ∈ trace, isTerminalStatus (dictGet r.payload "status") = false)
    (hpast : ∃ r ∈ trace, deadline < r.checkTime) :
    ∃ pre r post, trace = pre ++ r :: post ∧
      (∀ q ∈ pre, q.checkTime ≤ deadline) ∧ deadline < r.checkTime ∧
      pollLoop deadline trace = some (.timeout, pre.length + 1) := by
  induction trace with
  | nil => simp at hpast
  | cons t rest ih =>
    have ht : isTerminalStatus (dictGet t.payload "status") = false :=
      hterm t (by simp)
    by_cases hc : deadline < t.checkTime
    · exact ⟨[], t, rest, rfl, by simp, hc, by simp [pollLoop, ht, hc]⟩
    · have hpast2 : ∃ r ∈ rest, deadline < r.checkTime := by
        rcases hpast with ⟨r, hr, hrt⟩
        rcases List.mem_cons.mp hr with h | h
        · exact absurd (h ▸ hrt) hc
        · exact ⟨r, h, hrt⟩
      rcases ih (fun r hr => hterm r (List.mem_cons_of_mem t hr)) hpast2 with
        ⟨pre, r, post, heq, hpre, hrt, hpoll⟩
      refine ⟨t :: pre, r, post, by simp [heq], ?_, hrt, ?_⟩
      · intro q hq
        rcases List.mem_cons.mp hq with h | h
        · subst h; omega
        · exact hpre q h
      · simp [pollLoop, ht, hc, hpoll]

/-- Witness for the amended C8 on a one-round non-terminal trace. -/
theorem claim_C8_amended_witness :
    ∃ pre r post,
      ([⟨[("status", .vstr "processing")], 5⟩] : List PollRound)
        = pre ++ r :: post ∧
      (∀ q ∈ pre, q.checkTime ≤ 1) ∧ (1 : Int) < r.checkTime ∧
      pollLoop 1 [⟨[("status", .vstr "processing")], 5⟩]
        = some (.timeout, pre.length + 1) :=
  claim_C8_amended 1 [⟨[("status", .vstr "processing")], 5⟩]
    (by intro r hr; simp at hr; subst hr; rfl)
    ⟨⟨[("status", .vstr "processing")], 5⟩, by simp, by decide⟩

/-- C9: a request whose language code is not "korean" (case-insensitively)
or whose audio is not valid base64 never causes an upstream call, and with
settings available it is rejected with the corresponding failure response
before submit or poll. -/
theorem claim_C9_validation (settingsOk configOk : Bool) (req : STTArgument)
    (resp : HttpResponse)
    (h : pyLower req.languageCode ≠ "korean" ∨ b64decode req.audio = none) :
    (sttApiPhase settingsOk configOk req resp).2 = false ∧
    (settingsOk = true → pyLower req.languageCode ≠ "korean" →
      sttApiPhase settingsOk configOk req resp = (.languageRejected, false)) ∧
    (settingsOk = true → pyLower req.languageCode = "korean" →
      b64decode req.audio = none →
      sttApiPhase settingsOk configOk req resp = (.base64Rejected, false)) := by
  refine ⟨?_, ?_, ?_⟩
  · cases settingsOk with
    | false => simp [sttApiPhase]
    | true =>
      rcases h with h | h
      · simp [sttApiPhase, h]
      · by_cases hl : pyLower req.languageCode = "korean"
        · simp [sttApiPhase, hl, h]
        · simp [sttApiPhase, hl]
  · intro hs hl
    subst hs
    simp [sttApiPhase, hl]
  · intro hs hl hb
    subst hs
    simp [sttApiPhase, hl, hb]

/-- Witness for C9: an unsupported language and a malformed base64 payload
("abc!" leaves three alphabet characters, not a whole quad). -/
theorem claim_C9_witness :
    ((pyLower "English" ≠ "korean" ∨ b64decode "abc!" = none) ∧
      (sttApiPhase true true ⟨"English", "abc!"⟩ ⟨200, []⟩).2 = false) ∧
    (sttApiPhase true true ⟨"korean", "abc!"⟩ ⟨200, []⟩).2 = false :=
  ⟨⟨Or.inl (by decide),
    (claim_C9_validation true true ⟨"English", "abc!"⟩ ⟨200, []⟩
      (Or.inl (by decide))).1⟩,
   (claim_C9_validation true true ⟨"korean", "abc!"⟩ ⟨200, []⟩
      (Or.inr (by rfl))).1⟩

/-- C10: every successful submit returns a payload containing the
`transcribe_id` key; when the upstream response already had the key its
payload is returned unchanged, and when it lacked the key the key is
appended with the resolved job id, which then necessarily came from `id`
or `tid`. -/
theorem claim_C10_transcribe_id (resp : HttpResponse) (jobId : PyVal)
    (payload1 : List (String × PyVal))
    (h : submitTranscription resp = .ok jobId payload1) :
    dictHasKey payload1 "transcribe_id" = true ∧
    (dictHasKey resp.payload "transcribe_id" = true → payload1 = resp.payload) ∧
    (dictHasKey resp.payload "transcribe_id" = false →
      payload1 = resp.payload ++ [("transcribe_id", jobId)] ∧
      jobId = pyOr (dictGet resp.payload "id") (dictGet resp.payload "tid")) := by
  simp only [submitTranscription] at h
  by_cases hs : resp.status < 200 ∨ 300 ≤ resp.status
  · simp [hs] at h
  · simp only [if_neg hs] at h
    by_cases hj : pyTruthy (resolveJobId resp.payload) = true
    · rcases hk : dictHasKey resp.payload "transcribe_id" <;> simp [hj, hk] at h
      · rcases h with ⟨hjob, hpl⟩
        subst hjob
        subst hpl
        refine ⟨dictHasKey_append_self _ _ _, by simp, ?_⟩
        intro _
        refine ⟨rfl, ?_⟩
        simp only [resolveJobId] at hj ⊢
        have hnull : pyTruthy (dictGet resp.payload "transcribe_id") = false := by
          rw [dictGet_of_not_hasKey resp.payload "transcribe_id" hk]
          rfl
        simp only [pyOr] at hj ⊢
        by_cases h1 : pyTruthy (dictGet resp.payload "id") = true <;>
          by_cases h2 : pyTruthy (dictGet resp.payload "tid") = true <;>
            simp_all
      · rcases h with ⟨hjob, hpl⟩
        subst hjob
        subst hpl
        exact ⟨hk, fun _ => rfl, fun hfalse => by simp [hk] at hfalse⟩
    · simp [hj] at h

/-- Witness for C10 at a 2xx response carrying only `id`. -/
theorem claim_C10_witness :
    dictHasKey [("id", PyVal.vstr "j1"), ("transcribe_id", PyVal.vstr "j1")]
      "transcribe_id" = true ∧
    (dictHasKey [("id", PyVal.vstr "j1")] "transcribe_id" = true →
      [("id", PyVal.vstr "j1"), ("transcribe_id", PyVal.vstr "j1")]
        = [("id", PyVal.vstr "j1")]) ∧
    (dictHasKey [("id", PyVal.vstr "j1")] "transcribe_id" = false →
      [("id", PyVal.vstr "j1"), ("transcribe_id", PyVal.vstr "j1")]
        = [("id", PyVal.vstr "j1")] ++ [("transcribe_id", PyVal.vstr "j1")] ∧
      PyVal.vstr "j1" = pyOr (dictGet [("id", PyVal.vstr "j1")] "id")
        (dictGet [("id", PyVal.vstr "j1")] "tid")) :=
  claim_C10_transcribe_id ⟨200, [("id", .vstr "j1")]⟩ (.vstr "j1")
    [("id", .vstr "j1"), ("transcribe_id", .vstr "j1")] (by rfl)
